import Mathlib

/-!
Shallow embedding of the booking-conflict and pricing engine of the
Venue-Event-Management-System repository.

Sources embedded:
* `src/src/event/pricing.helper.ts` (`PricingHelper`): `calculateDuration`,
  `calculateBasePrice`, `calculateFinalPrice`, `getOptimalRentalType`.
* `src/src/event/event.service.ts` (`EventService`): `validateVenueCapacity`,
  `validateVenueActive`, `checkVenueAvailability`, and the pricing
  recalculation block of `updateEvent`.
* `src/src/venue/venue.service.ts` (`VenueService`): `deleteVenue`.

Modelling conventions:
* Timestamps (`Date`) are integers in milliseconds (`ℤ`).
* Money (`Prisma.Decimal` / JS `number` holding exact decimal values) is `ℚ`;
  `Math.round` is `mathRound`, `Math.ceil` is `mathCeil`.
* Nullable columns (`Decimal | null`, optional DTO fields) are `Option`.
  A Prisma `Decimal` object is always truthy in JS, so a JS test
  `!pricePerHour` on a `Decimal | null` is exactly an `Option.isNone` test.
* Database reads (`findUnique`, `findMany`) are modelled as lookups/filters
  over explicit lists passed as arguments, in the order the database
  returned the rows (the availability query has no `orderBy` clause).
* Thrown exceptions are modelled with `Except` or dedicated outcome types.
-/

/-- JS `Math.ceil` on an exact rational value. -/
def mathCeil (q : ℚ) : ℤ := ⌈q⌉

/-- JS `Math.round` on an exact rational value: half-up, `⌊q + 1/2⌋`. -/
def mathRound (q : ℚ) : ℤ := ⌊q + 1/2⌋

/-- `enum VenueStatus` after migration `20260213073406_update_venue_status_concept`. -/
inductive VenueStatus
  | ACTIVE
  | MAINTENANCE
  | INACTIVE
deriving DecidableEq, Repr

/-- `enum EventStatus` from the Prisma schema. -/
inductive EventStatus
  | UPCOMING
  | ONGOING
  | COMPLETED
  | CANCELLED
deriving DecidableEq, Repr

/-- `enum RentalType` from the Prisma schema. -/
inductive RentalType
  | HOURLY
  | DAILY
deriving DecidableEq, Repr

/-- The `Venue` record (fields used by the embedded services). -/
structure Venue where
  id : String
  name : String
  capacity : ℤ
  status : VenueStatus
  pricePerHour : Option ℚ
  pricePerDay : Option ℚ
deriving DecidableEq, Repr

/-- The `Event` (booking) record (fields used by the embedded services). -/
structure Event where
  id : String
  name : String
  venueId : String
  startDatetime : ℤ
  endDatetime : ℤ
  status : EventStatus
  rentalType : RentalType
  discount : ℚ
  additionalFees : ℚ
deriving DecidableEq, Repr

/-- `PricingHelper.calculateDuration`: `Math.ceil((end - start) / 3600000)`,
timestamps in milliseconds. -/
def calculateDuration (startDate endDate : ℤ) : ℤ :=
  mathCeil ((endDate - startDate : ℚ) / (1000 * 60 * 60))

/-- `PricingHelper.calculateBasePrice`. DAILY: `pricePerDay * Math.ceil(durationHours / 24)`,
throwing `Error('Daily price not set for this venue')` when `pricePerDay` is null;
otherwise (HOURLY): `pricePerHour * durationHours`, throwing
`Error('Hourly price not set for this venue')` when `pricePerHour` is null. -/
def calculateBasePrice (rentalType : RentalType) (pricePerHour pricePerDay : Option ℚ)
    (durationHours : ℚ) : Except String ℚ :=
  match rentalType with
  | RentalType.DAILY =>
    match pricePerDay with
    | none => Except.error "Daily price not set for this venue"
    | some pd => Except.ok (pd * (mathCeil (durationHours / 24) : ℚ))
  | RentalType.HOURLY =>
    match pricePerHour with
    | none => Except.error "Hourly price not set for this venue"
    | some ph => Except.ok (ph * durationHours)

/-- `PricingHelper.calculateFinalPrice`:
`Math.round(basePrice - basePrice * discountPercent / 100 + additionalFees)`. -/
def calculateFinalPrice (basePrice : ℚ) (discountPercent : ℚ) (additionalFees : ℚ) : ℤ :=
  let discountAmount := basePrice * discountPercent / 100
  let priceAfterDiscount := basePrice - discountAmount
  let finalPrice := priceAfterDiscount + additionalFees
  mathRound finalPrice

/-- `PricingHelper.getOptimalRentalType`: `if (!pricePerHour || !pricePerDay)
return pricePerHour ? HOURLY : DAILY;` then compares
`pricePerHour * durationHours <= pricePerDay * Math.ceil(durationHours / 24)`
(HOURLY on tie). A `Decimal` object is truthy, so the JS null-tests are
`Option.isNone` tests. -/
def getOptimalRentalType (pricePerHour pricePerDay : Option ℚ)
    (durationHours : ℚ) : RentalType :=
  match pricePerHour, pricePerDay with
  | some ph, some pd =>
    if ph * durationHours ≤ pd * (mathCeil (durationHours / 24) : ℚ) then
      RentalType.HOURLY
    else
      RentalType.DAILY
  | some _, none => RentalType.HOURLY
  | none, _ => RentalType.DAILY

/-- `EventService.validateVenueCapacity`, given the venue found by
`findUnique`. The JS guard `if (!attendeeCount || attendeeCount <= 0) return;`
is `attendeeCount ≤ 0`; the check then throws a `BadRequestException` when
`Number(attendeeCount) <= venue.capacity`. -/
def validateVenueCapacity (venue : Venue) (attendeeCount : ℤ) : Except String Unit :=
  if attendeeCount ≤ 0 then
    Except.ok ()
  else if attendeeCount ≤ venue.capacity then
    Except.error "Attendee count must be greater than venue capacity."
  else
    Except.ok ()

/-- `EventService.validateVenueActive`, given the venue found by `findUnique`:
throws a `BadRequestException` only when `venue.status === 'INACTIVE'`. -/
def validateVenueActive (venue : Venue) : Except String Unit :=
  if venue.status = VenueStatus.INACTIVE then
    Except.error "Cannot book venue because it is currently inactive."
  else
    Except.ok ()

/-- The three-way OR-of-ANDs condition of the Prisma `where.OR` clause in
`EventService.checkVenueAvailability`, for candidate `[s, e)` against a stored
event with window `[evStart, evEnd)`:
`(evStart ≤ s ∧ evEnd > s) ∨ (evStart < e ∧ evEnd ≥ e) ∨ (evStart ≥ s ∧ evEnd ≤ e)`. -/
def overlapCondition (s e evStart evEnd : ℤ) : Bool :=
  (decide (evStart ≤ s) && decide (evEnd > s)) ||
  (decide (evStart < e) && decide (evEnd ≥ e)) ||
  (decide (evStart ≥ s) && decide (evEnd ≤ e))

/-- The full `where` clause of the `findMany` in
`EventService.checkVenueAvailability`: same venue, not the excluded id
(the filter is only added when `excludeEventId` is truthy), status in
`['UPCOMING', 'ONGOING']`, and `overlapCondition`. -/
def availabilityWhere (venueId : String) (s e : ℤ) (excludeEventId : Option String)
    (ev : Event) : Bool :=
  decide (ev.venueId = venueId) &&
  (match excludeEventId with
   | some x => decide (ev.id ≠ x)
   | none => true) &&
  (decide (ev.status = EventStatus.UPCOMING) || decide (ev.status = EventStatus.ONGOING)) &&
  overlapCondition s e ev.startDatetime ev.endDatetime

/-- Outcome of `EventService.checkVenueAvailability`: either it returns
normally or it throws a `ConflictException` citing `overlappingEvents[0]`. -/
inductive AvailabilityOutcome
  | ok
  | conflictWith (ev : Event)
deriving DecidableEq, Repr

/-- `EventService.checkVenueAvailability`: `findMany` with `availabilityWhere`
(no `orderBy` — `events` is in database return order); if the result is
non-empty, throw a `ConflictException` carrying `overlappingEvents[0]`. -/
def checkVenueAvailability (events : List Event) (venueId : String) (s e : ℤ)
    (excludeEventId : Option String) : AvailabilityOutcome :=
  match events.filter (availabilityWhere venueId s e excludeEventId) with
  | [] => AvailabilityOutcome.ok
  | ev :: _ => AvailabilityOutcome.conflictWith ev

/-- Outcome of `VenueService.deleteVenue`: `NotFoundException`, the
`ConflictException` raised when the venue still has UPCOMING/ONGOING events
(`ActiveBookingsExistError` in the spec's taxonomy), or success with the
remaining list of venues after `prisma.venue.delete`. -/
inductive DeleteVenueOutcome
  | notFound
  | activeBookingsExist (venueName : String) (count : ℕ)
  | deleted (venues : List Venue)
deriving DecidableEq, Repr

/-- The `_count.events` filter of `VenueService.deleteVenue`: events of this
venue whose status is in `['UPCOMING', 'ONGOING']`. -/
def isActiveEventOf (venueId : String) (ev : Event) : Bool :=
  decide (ev.venueId = venueId) &&
  (decide (ev.status = EventStatus.UPCOMING) || decide (ev.status = EventStatus.ONGOING))

/-- `VenueService.deleteVenue`: `findUnique` on the venue id (throws
`NotFoundException` when absent), count the venue's UPCOMING/ONGOING events,
throw a `ConflictException` when that count is positive, otherwise delete the
venue record. -/
def deleteVenue (venues : List Venue) (events : List Event) (id : String) :
    DeleteVenueOutcome :=
  match venues.find? (fun v => decide (v.id = id)) with
  | none => DeleteVenueOutcome.notFound
  | some v =>
    let activeCount := (events.filter (isActiveEventOf id)).length
    if activeCount > 0 then
      DeleteVenueOutcome.activeBookingsExist v.name activeCount
    else
      DeleteVenueOutcome.deleted (venues.filter (fun w => decide (w.id ≠ id)))

/-- `UpdateEventDto` (a `PartialType` of `CreateEventDto`): every field
optional. Only the fields read by `updateEvent` are modelled. -/
structure UpdateEventDto where
  name : Option String := none
  startDatetime : Option ℤ := none
  endDatetime : Option ℤ := none
  venueId : Option String := none
  status : Option EventStatus := none
  attendeeCount : Option ℤ := none
  discount : Option ℚ := none
  additionalFees : Option ℚ := none
  rentalType : Option RentalType := none
  isPaid : Option Bool := none
deriving DecidableEq, Repr

/-- The pricing fields `updateEvent` writes into `updateData` when it
recalculates: `updateData.rentalType`, `updateData.basePrice`,
`updateData.finalPrice`. -/
structure PricingUpdate where
  rentalType : RentalType
  basePrice : ℚ
  finalPrice : ℤ
deriving DecidableEq, Repr

/-- The `shouldRecalculatePrice` condition in `EventService.updateEvent`:
`dto.startDatetime || dto.endDatetime || dto.venueId ||
dto.discount !== undefined || dto.additionalFees !== undefined`. -/
def shouldRecalculatePrice (dto : UpdateEventDto) : Bool :=
  dto.startDatetime.isSome || dto.endDatetime.isSome || dto.venueId.isSome ||
  dto.discount.isSome || dto.additionalFees.isSome

/-- The venue whose rate card `updateEvent` uses when recalculating: a fresh
`findUnique` when `dto.venueId` is supplied and differs from
`existingEvent.venueId`, else `existingEvent.venue` (passed here as
`existingVenue`). -/
def venueForRecalculation (venues : List Venue) (existing : Event)
    (existingVenue : Venue) (dto : UpdateEventDto) : Option Venue :=
  match dto.venueId with
  | some vid =>
    if vid ≠ existing.venueId then
      venues.find? (fun v => decide (v.id = vid))
    else
      some existingVenue
  | none => some existingVenue

/-- The pricing recalculation block of `EventService.updateEvent`
(the `shouldRecalculatePrice` branch): resolve the effective start/end
(`dto` value or the existing event's), fetch the venue rates, recompute
duration, rental type (always from `PricingHelper.getOptimalRentalType` —
`dto.rentalType` and `existing.rentalType` are never consulted), base price
and final price, and return the pricing fields written into `updateData`.
Returns `Except.ok none` when no recalculation is triggered, `Except.error`
for the thrown `NotFoundException` / pricing `Error`s. -/
def recalculatePricing (venues : List Venue) (existing : Event)
    (existingVenue : Venue) (dto : UpdateEventDto) :
    Except String (Option PricingUpdate) :=
  let startDatetime := dto.startDatetime.getD existing.startDatetime
  let endDatetime := dto.endDatetime.getD existing.endDatetime
  if shouldRecalculatePrice dto then
    match venueForRecalculation venues existing existingVenue dto with
    | none => Except.error "Venue not found"
    | some venue =>
      let duration := calculateDuration startDatetime endDatetime
      let rentalType := getOptimalRentalType venue.pricePerHour venue.pricePerDay
        (duration : ℚ)
      match calculateBasePrice rentalType venue.pricePerHour venue.pricePerDay
        (duration : ℚ) with
      | Except.error msg => Except.error msg
      | Except.ok basePrice =>
        let finalPrice := calculateFinalPrice basePrice
          (dto.discount.getD existing.discount)
          (dto.additionalFees.getD existing.additionalFees)
        Except.ok (some ⟨rentalType, basePrice, finalPrice⟩)
  else
    Except.ok none

/-- The single half-open-interval overlap predicate as the specification words
it (§4.1): `A.start < B.end AND B.start < A.end`. Stated from the spec, to be
compared with `overlapCondition` from the source. -/
def overlapSpec (aStart aEnd bStart bEnd : ℤ) : Prop :=
  aStart < bEnd ∧ bStart < aEnd

/-- Shared helper: for non-empty candidate `[s, e)` and non-empty stored
window `[bs, be)`, the query's OR-of-ANDs is the single strict-overlap test. -/
theorem overlapCondition_iff (s e bs be : ℤ) (hA : s < e) (hB : bs < be) :
    overlapCondition s e bs be = true ↔ (s < be ∧ bs < e) := by
  simp only [overlapCondition, Bool.or_eq_true, Bool.and_eq_true, decide_eq_true_eq,
    gt_iff_lt, ge_iff_le]
  omega

/-- C2: for non-empty half-open intervals A (the candidate) and B (a stored
event), the three-way OR-of-ANDs test of the availability query returns true
exactly when `A.start < B.end ∧ B.start < A.end`; intervals that merely touch
(one's start equal to the other's end) do not overlap. -/
theorem overlapCondition_equiv_overlapSpec (aStart aEnd bStart bEnd : ℤ)
    (hA : aStart < aEnd) (hB : bStart < bEnd) :
    (overlapCondition aStart aEnd bStart bEnd = true ↔
      overlapSpec aStart aEnd bStart bEnd)
    ∧ (bStart = aEnd → overlapCondition aStart aEnd bStart bEnd = false)
    ∧ (aStart = bEnd → overlapCondition aStart aEnd bStart bEnd = false) := by
  refine ⟨(overlapCondition_iff _ _ _ _ hA hB).trans Iff.rfl, ?_, ?_⟩ <;>
    · intro hEq
      rw [Bool.eq_false_iff]
      intro hTrue
      have h := (overlapCondition_iff _ _ _ _ hA hB).mp hTrue
      omega

/-- Witness for C2 at A = [0, 2), B = [1, 3). -/
theorem overlapCondition_equiv_overlapSpec_witness :
    (overlapCondition 0 2 1 3 = true ↔ overlapSpec 0 2 1 3)
    ∧ ((1 : ℤ) = 2 → overlapCondition 0 2 1 3 = false)
    ∧ ((0 : ℤ) = 3 → overlapCondition 0 2 1 3 = false) :=
  overlapCondition_equiv_overlapSpec 0 2 1 3 (by decide) (by decide)

/-- Shared helper: evaluate `mathRound` on a concrete rational. -/
theorem mathRound_eq (q : ℚ) (z : ℤ) (h1 : (z : ℚ) ≤ q + 1/2)
    (h2 : q + 1/2 < (z : ℚ) + 1) : mathRound q = z := by
  unfold mathRound
  rw [Int.floor_eq_iff]
  exact ⟨h1, by exact_mod_cast h2⟩

/-- Shared helper: evaluate `mathCeil` on a concrete rational. -/
theorem mathCeil_eq (q : ℚ) (z : ℤ) (h1 : (z : ℚ) - 1 < q) (h2 : q ≤ (z : ℚ)) :
    mathCeil q = z := by
  unfold mathCeil
  rw [Int.ceil_eq_iff]
  exact ⟨h1, h2⟩

/-- C4: for basePrice ≥ 0, discountPercent ∈ [0, 100] and additionalFees ≥ 0,
`calculateFinalPrice` returns `round(basePrice * (1 - discountPercent/100) +
additionalFees)` (round = JS `Math.round`, nearest whole unit, half up); in
particular basePrice 1000000, discount 10, fees 50000 yields 950000. -/
theorem calculateFinalPrice_spec :
    (∀ basePrice discountPercent additionalFees : ℚ,
      0 ≤ basePrice → 0 ≤ discountPercent → discountPercent ≤ 100 →
      0 ≤ additionalFees →
      calculateFinalPrice basePrice discountPercent additionalFees =
        mathRound (basePrice * (1 - discountPercent / 100) + additionalFees))
    ∧ calculateFinalPrice 1000000 10 50000 = 950000 := by
  constructor
  · intro basePrice discountPercent additionalFees _ _ _ _
    show mathRound (basePrice - basePrice * discountPercent / 100 + additionalFees) =
      mathRound (basePrice * (1 - discountPercent / 100) + additionalFees)
    congr 1
    ring
  · show mathRound ((1000000 : ℚ) - 1000000 * 10 / 100 + 50000) = 950000
    rw [show (1000000 : ℚ) - 1000000 * 10 / 100 + 50000 = 950000 by norm_num]
    exact mathRound_eq 950000 950000 (by norm_num) (by norm_num)

/-- Witness for C4 at basePrice 1000000, discount 10, fees 50000. -/
theorem calculateFinalPrice_spec_witness :
    calculateFinalPrice 1000000 10 50000 =
      mathRound (1000000 * (1 - 10 / 100) + 50000) :=
  calculateFinalPrice_spec.1 1000000 10 50000 (by norm_num) (by norm_num)
    (by norm_num) (by norm_num)

/-- C5: for durationHours > 0, a single configured rate forces that rate's
type; with both configured the resolver picks HOURLY exactly when
`pricePerHour * durationHours ≤ pricePerDay * ceil(durationHours / 24)`
(HOURLY on tie) and DAILY otherwise; in particular pricePerHour 100000,
pricePerDay 700000 and a 10-hour booking yield DAILY with base price 700000. -/
theorem getOptimalRentalType_spec :
    (∀ ph pd d : ℚ, 0 < d →
      getOptimalRentalType (some ph) none d = RentalType.HOURLY
      ∧ getOptimalRentalType none (some pd) d = RentalType.DAILY
      ∧ (getOptimalRentalType (some ph) (some pd) d = RentalType.HOURLY ↔
          ph * d ≤ pd * (mathCeil (d / 24) : ℚ))
      ∧ (getOptimalRentalType (some ph) (some pd) d = RentalType.DAILY ↔
          ¬ ph * d ≤ pd * (mathCeil (d / 24) : ℚ)))
    ∧ getOptimalRentalType (some 100000) (some 700000) 10 = RentalType.DAILY
    ∧ calculateBasePrice RentalType.DAILY (some 100000) (some 700000) 10 =
        Except.ok 700000 := by
  have hceil : mathCeil ((10 : ℚ) / 24) = 1 := mathCeil_eq _ 1 (by norm_num) (by norm_num)
  refine ⟨?_, ?_, ?_⟩
  · intro ph pd d _
    refine ⟨rfl, rfl, ?_, ?_⟩ <;>
      · simp only [getOptimalRentalType]
        split <;> simp_all
  · simp only [getOptimalRentalType, hceil]
    norm_num
  · simp only [calculateBasePrice, hceil]
    norm_num

/-- Witness for C5 at pricePerHour 100000, pricePerDay 700000, duration 10. -/
theorem getOptimalRentalType_spec_witness :
    getOptimalRentalType (some 100000) none 10 = RentalType.HOURLY
    ∧ getOptimalRentalType none (some 700000) 10 = RentalType.DAILY
    ∧ (getOptimalRentalType (some 100000) (some 700000) 10 = RentalType.HOURLY ↔
        (100000 : ℚ) * 10 ≤ 700000 * (mathCeil ((10 : ℚ) / 24) : ℚ))
    ∧ (getOptimalRentalType (some 100000) (some 700000) 10 = RentalType.DAILY ↔
        ¬ (100000 : ℚ) * 10 ≤ 700000 * (mathCeil ((10 : ℚ) / 24) : ℚ)) :=
  getOptimalRentalType_spec.1 100000 700000 10 (by norm_num)

/-- Counterexample for C7: with neither rate configured the resolver does not
fail — it returns the rental type DAILY (the JS fallback
`pricePerHour ? HOURLY : DAILY` with a null `pricePerHour`). -/
theorem getOptimalRentalType_none_counterexample :
    getOptimalRentalType none none 5 = RentalType.DAILY := rfl

/-- C7 amended: when neither pricePerHour nor pricePerDay is configured, the
resolver returns DAILY, and the subsequent `calculateBasePrice` call is what
fails, with the missing-daily-rate error — so pricing as a whole still cannot
succeed, but the failure is raised downstream of the resolver. -/
theorem getOptimalRentalType_none_amended (d : ℚ) :
    getOptimalRentalType none none d = RentalType.DAILY
    ∧ calculateBasePrice (getOptimalRentalType none none d) none none d =
        Except.error "Daily price not set for this venue" :=
  ⟨rfl, rfl⟩

/-- Witness for C7's amended claim at duration 7. -/
theorem getOptimalRentalType_none_amended_witness :
    getOptimalRentalType none none 7 = RentalType.DAILY
    ∧ calculateBasePrice (getOptimalRentalType none none 7) none none 7 =
        Except.error "Daily price not set for this venue" :=
  getOptimalRentalType_none_amended 7

/-- C1 (code behavior at the failing input): the source's capacity check
throws exactly when `attendeeCount <= venue.capacity`, i.e. it rejects a
booking of 50 attendees in a capacity-100 venue and accepts one of 150. -/
theorem validateVenueCapacity_inverted :
    validateVenueCapacity ⟨"v1", "Hall A", 100, VenueStatus.ACTIVE, none, none⟩ 50 =
      Except.error "Attendee count must be greater than venue capacity."
    ∧ validateVenueCapacity ⟨"v1", "Hall A", 100, VenueStatus.ACTIVE, none, none⟩ 150 =
      Except.ok () :=
  ⟨rfl, rfl⟩

/-- Counterexample for C6: a venue under MAINTENANCE passes
`validateVenueActive` (the source only rejects status INACTIVE), so the check
does not fail for MAINTENANCE as claimed. -/
theorem validateVenueActive_maintenance_counterexample :
    validateVenueActive ⟨"v1", "Hall A", 100, VenueStatus.MAINTENANCE, none, none⟩ =
      Except.ok () := rfl

/-- C6 amended: the venue operational check fails exactly when the venue's
status is INACTIVE; both ACTIVE and MAINTENANCE venues pass. -/
theorem validateVenueActive_amended (venue : Venue) :
    (∃ msg, validateVenueActive venue = Except.error msg) ↔
      venue.status = VenueStatus.INACTIVE := by
  unfold validateVenueActive
  by_cases h : venue.status = VenueStatus.INACTIVE <;> simp [h]

/-- Witness for C6's amended claim at a concrete INACTIVE venue. -/
theorem validateVenueActive_amended_witness :
    (∃ msg, validateVenueActive
        ⟨"v2", "Hall B", 80, VenueStatus.INACTIVE, none, none⟩ = Except.error msg) ↔
      (⟨"v2", "Hall B", 80, VenueStatus.INACTIVE, none, none⟩ : Venue).status =
        VenueStatus.INACTIVE :=
  validateVenueActive_amended ⟨"v2", "Hall B", 80, VenueStatus.INACTIVE, none, none⟩

/-- C3: `checkVenueAvailability` raises a ConflictError exactly when some
event on the venue, other than the excluded id, with status UPCOMING or
ONGOING, strictly overlaps the half-open candidate `[s, e)`
(`s < ev.end ∧ ev.start < e`); COMPLETED/CANCELLED events and merely adjacent
bookings never block. -/
theorem checkVenueAvailability_conflict_iff (events : List Event) (venueId : String)
    (s e : ℤ) (excludeEventId : Option String) (hse : s < e)
    (hwf : ∀ ev ∈ events, ev.startDatetime < ev.endDatetime) :
    (∃ ev, checkVenueAvailability events venueId s e excludeEventId =
        AvailabilityOutcome.conflictWith ev) ↔
      ∃ ev ∈ events, ev.venueId = venueId ∧
        (∀ x, excludeEventId = some x → ev.id ≠ x) ∧
        (ev.status = EventStatus.UPCOMING ∨ ev.status = EventStatus.ONGOING) ∧
        s < ev.endDatetime ∧ ev.startDatetime < e := by
  have key : ∀ ev ∈ events, (availabilityWhere venueId s e excludeEventId ev = true ↔
      (ev.venueId = venueId ∧ (∀ x, excludeEventId = some x → ev.id ≠ x) ∧
       (ev.status = EventStatus.UPCOMING ∨ ev.status = EventStatus.ONGOING) ∧
       s < ev.endDatetime ∧ ev.startDatetime < e)) := by
    intro ev hev
    have hwf' := hwf ev hev
    rcases excludeEventId with _ | x <;>
      simp only [availabilityWhere, Bool.and_eq_true, Bool.or_eq_true,
        decide_eq_true_eq, overlapCondition_iff _ _ _ _ hse hwf',
        Option.some.injEq, ne_eq, reduceCtorEq, false_implies, implies_true,
        forall_eq', and_true, true_and] <;>
      tauto
  unfold checkVenueAvailability
  rcases hfil : events.filter (availabilityWhere venueId s e excludeEventId) with
    _ | ⟨a, l⟩
  · constructor
    · rintro ⟨ev, hev⟩
      simp at hev
    · rintro ⟨ev, hev, hprop⟩
      exfalso
      have hmem : ev ∈ events.filter (availabilityWhere venueId s e excludeEventId) :=
        List.mem_filter.mpr ⟨hev, (key ev hev).mpr hprop⟩
      rw [hfil] at hmem
      simp at hmem
  · constructor
    · intro _
      have hmem : a ∈ events.filter (availabilityWhere venueId s e excludeEventId) := by
        rw [hfil]
        exact List.mem_cons_self a l
      have h := List.mem_filter.mp hmem
      exact ⟨a, h.1, (key a h.1).mp h.2⟩
    · intro _
      exact ⟨a, rfl⟩

/-- Witness for C3 at one UPCOMING event [0, 10) on venue v1 and candidate
[5, 15) with no excluded id. -/
theorem checkVenueAvailability_conflict_iff_witness :
    (∃ ev, checkVenueAvailability
        [⟨"e1", "Expo", "v1", 0, 10, EventStatus.UPCOMING, RentalType.HOURLY, 0, 0⟩]
        "v1" 5 15 none = AvailabilityOutcome.conflictWith ev) ↔
      ∃ ev ∈ [(⟨"e1", "Expo", "v1", 0, 10, EventStatus.UPCOMING,
          RentalType.HOURLY, 0, 0⟩ : Event)], ev.venueId = "v1" ∧
        (∀ x, (none : Option String) = some x → ev.id ≠ x) ∧
        (ev.status = EventStatus.UPCOMING ∨ ev.status = EventStatus.ONGOING) ∧
        (5 : ℤ) < ev.endDatetime ∧ ev.startDatetime < (15 : ℤ) :=
  checkVenueAvailability_conflict_iff _ "v1" 5 15 none (by decide)
    (by
      intro ev hev
      rw [List.mem_singleton] at hev
      subst hev
      decide)

/-- The two blocking events of the C8 experiment: in database return order,
the first (`conflictEventA`) starts later than the second
(`conflictEventB`). -/
def conflictEventA : Event :=
  ⟨"e1", "Morning Expo", "v1", 100, 200, EventStatus.UPCOMING, RentalType.HOURLY, 0, 0⟩

/-- See `conflictEventA`. -/
def conflictEventB : Event :=
  ⟨"e2", "Early Setup", "v1", 0, 200, EventStatus.UPCOMING, RentalType.HOURLY, 0, 0⟩

/-- Counterexample for C8: with fetched order [A, B] where both block the
candidate [150, 160) and B starts earlier than A, the ConflictError carries A
(`overlappingEvents[0]` in fetch order), not the earliest-starting blocking
event B — the source applies no sort by startDatetime. -/
theorem checkVenueAvailability_not_sorted_counterexample :
    checkVenueAvailability [conflictEventA, conflictEventB] "v1" 150 160 none =
      AvailabilityOutcome.conflictWith conflictEventA
    ∧ availabilityWhere "v1" 150 160 none conflictEventB = true
    ∧ conflictEventB.startDatetime < conflictEventA.startDatetime :=
  ⟨rfl, rfl, by decide⟩

/-- C8 amended: the ConflictError carries the head of the filtered list of
blocking events in the order the query returned them (no sorting by
startDatetime is applied), so the reported conflict is deterministic only for
a fixed return order of the fetch. -/
theorem checkVenueAvailability_reports_first_fetched (events : List Event)
    (venueId : String) (s e : ℤ) (excludeEventId : Option String)
    (ev : Event) (rest : List Event)
    (h : events.filter (availabilityWhere venueId s e excludeEventId) = ev :: rest) :
    checkVenueAvailability events venueId s e excludeEventId =
      AvailabilityOutcome.conflictWith ev := by
  unfold checkVenueAvailability
  rw [h]

/-- Witness for C8's amended claim at the two-event input of the
counterexample. -/
theorem checkVenueAvailability_reports_first_fetched_witness :
    checkVenueAvailability [conflictEventA, conflictEventB] "v1" 150 160 none =
      AvailabilityOutcome.conflictWith conflictEventA :=
  checkVenueAvailability_reports_first_fetched _ _ _ _ _ _ [conflictEventB] rfl

/-- C9: given the venue is found, `deleteVenue` fails with
ActiveBookingsExistError exactly when the venue owns at least one event whose
status is UPCOMING or ONGOING; when no such event exists, the venue record is
deleted and the operation succeeds. -/
theorem deleteVenue_spec (venues : List Venue) (events : List Event) (id : String)
    (v : Venue) (hfind : venues.find? (fun w => decide (w.id = id)) = some v) :
    ((∃ name cnt, deleteVenue venues events id =
        DeleteVenueOutcome.activeBookingsExist name cnt) ↔
      ∃ ev ∈ events, ev.venueId = id ∧
        (ev.status = EventStatus.UPCOMING ∨ ev.status = EventStatus.ONGOING))
    ∧ ((¬ ∃ ev ∈ events, ev.venueId = id ∧
        (ev.status = EventStatus.UPCOMING ∨ ev.status = EventStatus.ONGOING)) →
      deleteVenue venues events id =
        DeleteVenueOutcome.deleted (venues.filter (fun w => decide (w.id ≠ id)))) := by
  have hmem : events.filter (isActiveEventOf id) ≠ [] ↔
      ∃ ev ∈ events, ev.venueId = id ∧
        (ev.status = EventStatus.UPCOMING ∨ ev.status = EventStatus.ONGOING) := by
    rw [ne_eq, List.filter_eq_nil_iff]
    push_neg
    simp only [isActiveEventOf, Bool.and_eq_true, Bool.or_eq_true, decide_eq_true_eq]
  unfold deleteVenue
  rw [hfind]
  by_cases hl : events.filter (isActiveEventOf id) = []
  · have hlen : (events.filter (isActiveEventOf id)).length = 0 := by
      rw [hl]
      rfl
    constructor
    · constructor
      · rintro ⟨name, cnt, habs⟩
        rw [hlen] at habs
        simp at habs
      · intro hex
        exact absurd (hmem.mpr hex) (by simp [hl])
    · intro _
      rw [hlen]
      simp
  · have hpos : 0 < (events.filter (isActiveEventOf id)).length :=
      List.length_pos.mpr hl
    constructor
    · constructor
      · intro _
        exact hmem.mp hl
      · intro _
        exact ⟨v.name, (events.filter (isActiveEventOf id)).length, by simp [hpos]⟩
    · intro hnone
      exact absurd (hmem.mp hl) hnone

/-- Witness for C9: a single venue v1 with one UPCOMING event is protected
from deletion; with only a COMPLETED event it is deleted. -/
theorem deleteVenue_spec_witness :
    ((∃ name cnt, deleteVenue
        [(⟨"v1", "Hall A", 100, VenueStatus.ACTIVE, none, none⟩ : Venue)]
        [(⟨"e1", "Expo", "v1", 0, 10, EventStatus.UPCOMING,
          RentalType.HOURLY, 0, 0⟩ : Event)] "v1" =
        DeleteVenueOutcome.activeBookingsExist name cnt) ↔
      ∃ ev ∈ [(⟨"e1", "Expo", "v1", 0, 10, EventStatus.UPCOMING,
          RentalType.HOURLY, 0, 0⟩ : Event)], ev.venueId = "v1" ∧
        (ev.status = EventStatus.UPCOMING ∨ ev.status = EventStatus.ONGOING))
    ∧ ((¬ ∃ ev ∈ [(⟨"e1", "Expo", "v1", 0, 10, EventStatus.UPCOMING,
          RentalType.HOURLY, 0, 0⟩ : Event)], ev.venueId = "v1" ∧
        (ev.status = EventStatus.UPCOMING ∨ ev.status = EventStatus.ONGOING)) →
      deleteVenue [(⟨"v1", "Hall A", 100, VenueStatus.ACTIVE, none, none⟩ : Venue)]
        [(⟨"e1", "Expo", "v1", 0, 10, EventStatus.UPCOMING,
          RentalType.HOURLY, 0, 0⟩ : Event)] "v1" =
        DeleteVenueOutcome.deleted
          ([(⟨"v1", "Hall A", 100, VenueStatus.ACTIVE, none, none⟩ : Venue)].filter
            (fun w => decide (w.id ≠ "v1")))) :=
  deleteVenue_spec _ _ "v1" ⟨"v1", "Hall A", 100, VenueStatus.ACTIVE, none, none⟩ rfl

/-- C10: whenever the update supplies a pricing-relevant field
(startDatetime, endDatetime, venueId, discount or additionalFees) and the
pricing recalculation of `updateEvent` succeeds, the rentalType written into
`updateData` is exactly `PricingHelper.getOptimalRentalType` applied to the
rate card of the venue used and the recomputed duration; neither the
rentalType stored on the event nor a rentalType supplied in the update
payload enters the computation at all (changing either leaves the whole
recalculation unchanged). -/
theorem updateEvent_overwrites_rentalType (venues : List Venue) (existing : Event)
    (existingVenue : Venue) (dto : UpdateEventDto) (venue : Venue) (pu : PricingUpdate)
    (hRecalc : shouldRecalculatePrice dto = true)
    (hVenue : venueForRecalculation venues existing existingVenue dto = some venue)
    (hRun : recalculatePricing venues existing existingVenue dto =
      Except.ok (some pu)) :
    pu.rentalType = getOptimalRentalType venue.pricePerHour venue.pricePerDay
      ((calculateDuration (dto.startDatetime.getD existing.startDatetime)
        (dto.endDatetime.getD existing.endDatetime)) : ℚ)
    ∧ (∀ rtStored rtPayload,
        recalculatePricing venues { existing with rentalType := rtStored }
          existingVenue { dto with rentalType := rtPayload } =
          recalculatePricing venues existing existingVenue dto) := by
  constructor
  · have h := hRun
    simp only [recalculatePricing, hRecalc, if_true, hVenue] at h
    rcases hbp : calculateBasePrice
        (getOptimalRentalType venue.pricePerHour venue.pricePerDay
          ((calculateDuration (dto.startDatetime.getD existing.startDatetime)
            (dto.endDatetime.getD existing.endDatetime)) : ℚ))
        venue.pricePerHour venue.pricePerDay
        ((calculateDuration (dto.startDatetime.getD existing.startDatetime)
          (dto.endDatetime.getD existing.endDatetime)) : ℚ) with msg | bp
    · rw [hbp] at h
      simp at h
    · rw [hbp] at h
      simp only [Except.ok.injEq, Option.some.injEq] at h
      rw [← h]
  · intro rtStored rtPayload
    rfl

/-- Witness for C10: an event stored with rentalType DAILY in an hourly-only
venue; an update supplying only a discount triggers recalculation, and the
written rentalType is the resolver's HOURLY, for every stored/payload
rentalType. -/
theorem updateEvent_overwrites_rentalType_witness :
    (⟨RentalType.HOURLY, 2, 2⟩ : PricingUpdate).rentalType =
      getOptimalRentalType (some 2) none
        ((calculateDuration ((none : Option ℤ).getD 0)
          ((none : Option ℤ).getD 3600000)) : ℚ)
    ∧ (∀ rtStored rtPayload,
        recalculatePricing []
          { (⟨"e1", "Expo", "v1", 0, 3600000, EventStatus.UPCOMING,
              RentalType.DAILY, 0, 0⟩ : Event) with rentalType := rtStored }
          ⟨"v1", "Hall A", 100, VenueStatus.ACTIVE, some 2, none⟩
          { ({ discount := some 0 } : UpdateEventDto) with rentalType := rtPayload } =
          recalculatePricing []
            ⟨"e1", "Expo", "v1", 0, 3600000, EventStatus.UPCOMING,
              RentalType.DAILY, 0, 0⟩
            ⟨"v1", "Hall A", 100, VenueStatus.ACTIVE, some 2, none⟩
            { discount := some 0 }) := by
  have hdur : calculateDuration 0 3600000 = 1 := by
    unfold calculateDuration
    exact mathCeil_eq _ 1 (by norm_num) (by norm_num)
  have hfin : calculateFinalPrice 2 0 0 = 2 := by
    show mathRound ((2 : ℚ) - 2 * 0 / 100 + 0) = 2
    rw [show (2 : ℚ) - 2 * 0 / 100 + 0 = 2 by norm_num]
    exact mathRound_eq 2 2 (by norm_num) (by norm_num)
  refine updateEvent_overwrites_rentalType []
    ⟨"e1", "Expo", "v1", 0, 3600000, EventStatus.UPCOMING, RentalType.DAILY, 0, 0⟩
    ⟨"v1", "Hall A", 100, VenueStatus.ACTIVE, some 2, none⟩
    { discount := some 0 }
    ⟨"v1", "Hall A", 100, VenueStatus.ACTIVE, some 2, none⟩
    ⟨RentalType.HOURLY, 2, 2⟩ rfl rfl ?_
  simp only [recalculatePricing, shouldRecalculatePrice, venueForRecalculation,
    Option.getD, Option.isSome, Bool.or_true, Bool.true_or, if_true, hdur]
  simp only [getOptimalRentalType, calculateBasePrice, hfin]
  norm_num [hfin]
